import Mathlib

/-!
Verification of the dramma cash-acceptor driver (`src/cashcode.rs`).

The driver talks to a CashCode bill acceptor over a serial port, decodes
response frames into `BillEvent`s, tracks a sticky stacker-removed flag, and
keeps a durable per-denomination ledger in SQLite. We embed the pure decision
logic of `CashCode::poll`, `record_bill`, `get_bill_counts` and
`get_total_amount` as Lean functions: the serial port is represented by the
response buffer read during the poll (plus the buffer read by a nested
`enable` call), the SQLite table `accepted_bills` by a record of the five
quantities, and a possible failure of the ledger increment by a boolean
parameter. Commands written to the port are collected in a list.
-/

namespace Dramma

/-- Outbound poll command, `COMMAND_POLL` in the source. -/
def COMMAND_POLL : List Nat := [0x02, 0x03, 0x06, 0x33, 0xDA, 0x81]

/-- Outbound enable command, `COMMAND_ENABLE` in the source. -/
def COMMAND_ENABLE : List Nat :=
  [0x02, 0x03, 0x0C, 0x34, 0xFF, 0xFF, 0xFF, 0x00, 0x00, 0x00, 0xB5, 0xC1]

/-- Acknowledgement frame, `ACK` in the source. -/
def ACK : List Nat := [0x02, 0x03, 0x06, 0x00, 0xC2, 0x82]

/-- Status code constants from the source. -/
def STATUS_INITIALIZING : Nat := 0x13

def STATUS_DISABLED : Nat := 0x19

def STATUS_IDLING : Nat := 0x14

def STATUS_ACCEPTING : Nat := 0x15

def STATUS_STACKING : Nat := 0x17

def STATUS_STACKER_FULL : Nat := 0x41

def STATUS_STACKER_REMOVED : Nat := 0x42

def STATUS_JAM_IN_ACCEPTOR : Nat := 0x43

def STATUS_JAM_IN_STACKER : Nat := 0x44

def STATUS_FAILURE : Nat := 0x47

def STATUS_REJECTED : Nat := 0x1C

def STATUS_BILL_STACKED : Nat := 0x81

/-- Failure code `FAILURE_55` from the source. -/
def FAILURE_55 : Nat := 0x55

/-- Bill denominations, `BillNominal` in the source. -/
inductive BillNominal where
  | Dram1000
  | Dram2000
  | Dram5000
  | Dram10000
  | Dram20000
deriving DecidableEq, Repr

/-- Numeric value of a denomination, `BillNominal::value`. -/
def BillNominal.value : BillNominal → Int
  | .Dram1000 => 1000
  | .Dram2000 => 2000
  | .Dram5000 => 5000
  | .Dram10000 => 10000
  | .Dram20000 => 20000

/-- Decoding of the wire code of a denomination, `BillNominal::from_code`.
The match arms mirror the source: `0x00`, `0x0C`, `0x01`, `0x02`, `0x03`
map to 1000, 2000, 5000, 10000, 20000 dram; everything else is `none`. -/
def BillNominal.from_code : Nat → Option BillNominal
  | 0x00 => some .Dram1000
  | 0x0C => some .Dram2000
  | 0x01 => some .Dram5000
  | 0x02 => some .Dram10000
  | 0x03 => some .Dram20000
  | _ => none

/-- Domain events, `BillEvent` in the source. -/
inductive BillEvent where
  | Accepted (nominal : BillNominal)
  | Rejected (reason : String)
  | StackerRemoved
  | StackerReplaced
  | Jam (reason : String)
  | Error (message : String)
deriving DecidableEq, Repr

/-- Errors of the driver, `CashCodeError` in the source. Only the `Database`
variant is reachable in the embedded fragment (the others come from I/O,
which the embedding represents by explicit buffers). -/
inductive CashCodeError where
  | SerialPort
  | Io
  | Database
  | InvalidResponse (message : String)
  | UnexpectedAck
  | DeviceError (message : String)
deriving DecidableEq, Repr

/-- Upper-case hexadecimal digit, used to mirror Rust's `{:02X}` formatting. -/
def hexDigit (n : Nat) : Char :=
  if n < 10 then Char.ofNat (48 + n) else Char.ofNat (55 + n)

/-- Two-digit upper-case hexadecimal rendering of a byte, mirroring `{:02X}`. -/
def hex2 (n : Nat) : String :=
  String.mk [hexDigit (n / 16 % 16), hexDigit (n % 16)]

/-- Reject reason table from the `STATUS_REJECTED` arm of `CashCode::poll`. -/
def rejectReason (code : Nat) : String :=
  if code = 0x60 then "Insertion error"
  else if code = 0x64 then "Conveying error"
  else if code = 0x65 then "Identification error"
  else if code = 0x66 then "Verification error"
  else if code = 0x68 then "Denomination inhibited"
  else if code = 0x69 then "Capacity error"
  else if code = 0x6A then "Operation error"
  else "Unknown error"

/-- The SQLite table `accepted_bills` after `init_database`: exactly one row
per denomination (`nominal INTEGER PRIMARY KEY`), holding its quantity. -/
structure BillTable where
  q1000 : Nat
  q2000 : Nat
  q5000 : Nat
  q10000 : Nat
  q20000 : Nat
deriving DecidableEq, Repr

/-- Freshly initialized table: `init_database` seeds every row at quantity 0
(`INSERT OR IGNORE ... VALUES (?1, 0)`). -/
def init_database : BillTable := ⟨0, 0, 0, 0, 0⟩

/-- Quantity stored for a denomination. -/
def BillTable.count (t : BillTable) : BillNominal → Nat
  | .Dram1000 => t.q1000
  | .Dram2000 => t.q2000
  | .Dram5000 => t.q5000
  | .Dram10000 => t.q10000
  | .Dram20000 => t.q20000

/-- Ledger increment, `CashCode::record_bill`: `UPDATE accepted_bills SET
quantity = quantity + 1 WHERE nominal = ?1`. -/
def record_bill (nominal : BillNominal) (t : BillTable) : BillTable :=
  match nominal with
  | .Dram1000 => { t with q1000 := t.q1000 + 1 }
  | .Dram2000 => { t with q2000 := t.q2000 + 1 }
  | .Dram5000 => { t with q5000 := t.q5000 + 1 }
  | .Dram10000 => { t with q10000 := t.q10000 + 1 }
  | .Dram20000 => { t with q20000 := t.q20000 + 1 }

/-- Ledger query, `CashCode::get_bill_counts`: `SELECT nominal, quantity FROM
accepted_bills ORDER BY nominal`. The table always holds exactly the five
seeded rows, so the result is their five pairs in ascending nominal order. -/
def get_bill_counts (t : BillTable) : List (Int × Int) :=
  [(1000, (t.q1000 : Int)), (2000, (t.q2000 : Int)), (5000, (t.q5000 : Int)),
    (10000, (t.q10000 : Int)), (20000, (t.q20000 : Int))]

/-- Ledger total, `CashCode::get_total_amount`: `SELECT SUM(nominal *
quantity) FROM accepted_bills`. -/
def get_total_amount (t : BillTable) : Int :=
  1000 * (t.q1000 : Int) + 2000 * (t.q2000 : Int) + 5000 * (t.q5000 : Int) +
    10000 * (t.q10000 : Int) + 20000 * (t.q20000 : Int)

/-- Bytes written by `CashCode::enable` during one call: the enable command,
then (when the response read back is not the literal `ACK`) an ack. -/
def enableWrites (enableResp : List Nat) : List (List Nat) :=
  COMMAND_ENABLE :: (if enableResp = ACK then [] else [ACK])

instance {ε α : Type} [DecidableEq ε] [DecidableEq α] :
    DecidableEq (Except ε α) := fun a b =>
  match a, b with
  | .ok x, .ok y =>
    if h : x = y then isTrue (by rw [h])
    else isFalse (by intro hx; injection hx; exact h (by assumption))
  | .error x, .error y =>
    if h : x = y then isTrue (by rw [h])
    else isFalse (by intro hx; injection hx; exact h (by assumption))
  | .ok _, .error _ => isFalse (fun hx => Except.noConfusion hx)
  | .error _, .ok _ => isFalse (fun hx => Except.noConfusion hx)

/-- Result of one `CashCode::poll` call: the returned value, the new
`stacker_removed` flag, the ledger table, and the frames written to the
serial port, in order. -/
structure PollResult where
  ret : Except CashCodeError (Option BillEvent)
  stackerRemoved : Bool
  db : BillTable
  writes : List (List Nat)
deriving DecidableEq, Repr

/-- The `match status` arm of `CashCode::poll`. `status` is the byte at
offset 3 of `resp`; `resp` is still needed for the payload checks,
`enableResp` is the buffer the nested `enable` call reads on the
stacker-replaced path, `ledgerOk` tells whether the SQLite increment in
`record_bill` succeeds (`false` models a `rusqlite` failure, which the
source propagates with `?`). -/
def dispatch (status : Nat) (resp enableResp : List Nat) (ledgerOk sr : Bool)
    (db : BillTable) : PollResult :=
  if status = STATUS_INITIALIZING then
    ⟨.ok none, sr, db, [COMMAND_POLL, ACK]⟩
  else if status = STATUS_DISABLED then
    if sr then
      ⟨.ok (some .StackerReplaced), false, db,
        [COMMAND_POLL, ACK] ++ enableWrites enableResp⟩
    else ⟨.ok none, sr, db, [COMMAND_POLL, ACK]⟩
  else if status = STATUS_IDLING ∨ status = STATUS_ACCEPTING ∨
      status = STATUS_STACKING then
    ⟨.ok none, sr, db, [COMMAND_POLL, ACK]⟩
  else if status = STATUS_STACKER_REMOVED then
    if ¬sr then ⟨.ok (some .StackerRemoved), true, db, [COMMAND_POLL, ACK]⟩
    else ⟨.ok none, sr, db, [COMMAND_POLL, ACK]⟩
  else if status = STATUS_JAM_IN_STACKER then
    ⟨.ok (some (.Jam "Bill jam in stacker")), sr, db, [COMMAND_POLL, ACK]⟩
  else if status = STATUS_JAM_IN_ACCEPTOR then
    ⟨.ok (some (.Jam "Bill jam in acceptor")), sr, db, [COMMAND_POLL, ACK]⟩
  else if status = STATUS_FAILURE then
    if resp.length < 5 then ⟨.ok none, sr, db, [COMMAND_POLL]⟩
    else
      let errorCode := resp.getD 4 0
      if errorCode = FAILURE_55 then
        ⟨.ok (some (.Error "FAILURE 55")), sr, db, [COMMAND_POLL, ACK]⟩
      else
        ⟨.ok (some (.Error ("FAILURE 0x" ++ hex2 errorCode))), sr, db,
          [COMMAND_POLL, ACK]⟩
  else if status = STATUS_REJECTED then
    if resp.length < 5 then ⟨.ok none, sr, db, [COMMAND_POLL]⟩
    else
      ⟨.ok (some (.Rejected (rejectReason (resp.getD 4 0)))), sr, db,
        [COMMAND_POLL, ACK]⟩
  else if status = STATUS_BILL_STACKED then
    if resp.length < 5 then ⟨.ok none, sr, db, [COMMAND_POLL]⟩
    else
      match BillNominal.from_code (resp.getD 4 0) with
      | some nominal =>
        if ledgerOk then
          ⟨.ok (some (.Accepted nominal)), sr, record_bill nominal db,
            [COMMAND_POLL, ACK]⟩
        else ⟨.error .Database, sr, db, [COMMAND_POLL, ACK]⟩
      | none =>
        ⟨.ok (some (.Error ("Unknown nominal: 0x" ++ hex2 (resp.getD 4 0)))),
          sr, db, [COMMAND_POLL, ACK]⟩
  else ⟨.ok none, sr, db, [COMMAND_POLL]⟩

/-- One call of `CashCode::poll`. `resp` is the buffer `read_response`
returns after the poll command has been written; the three leading guards
mirror the source's length and header checks, after which the status byte
at offset 3 is dispatched. -/
def poll (resp enableResp : List Nat) (ledgerOk : Bool) (sr : Bool)
    (db : BillTable) : PollResult :=
  if resp.length < 2 then ⟨.ok none, sr, db, [COMMAND_POLL]⟩
  else if ¬(resp.getD 0 0 = 0x02 ∧ resp.getD 1 0 = 0x03) then
    ⟨.ok none, sr, db, [COMMAND_POLL]⟩
  else if resp.length < 4 then ⟨.ok none, sr, db, [COMMAND_POLL]⟩
  else dispatch (resp.getD 3 0) resp enableResp ledgerOk sr db

/-- Result of running a sequence of polls. -/
structure RunResult where
  stackerRemoved : Bool
  db : BillTable
  events : List BillEvent
deriving DecidableEq, Repr

/-- Runs a sequence of polls with a healthy ledger (every SQLite increment
succeeds, so every poll returns `Ok`), collecting the emitted events in
order. Each input pairs the poll response buffer with the buffer a nested
`enable` call would read. -/
def runPolls : List (List Nat × List Nat) → Bool → BillTable → RunResult
  | [], sr, db => ⟨sr, db, []⟩
  | (r, er) :: rest, sr, db =>
    let p := poll r er true sr db
    let tail := runPolls rest p.stackerRemoved p.db
    match p.ret with
    | .ok (some e) => ⟨tail.stackerRemoved, tail.db, e :: tail.events⟩
    | _ => ⟨tail.stackerRemoved, tail.db, tail.events⟩

/-- Number of `Accepted d` events in a list. -/
def countAccepted (d : BillNominal) (evs : List BillEvent) : Nat :=
  evs.countP (fun e => e = .Accepted d)

/-- A buffer that reaches the status dispatch of `poll` with the given
status byte: valid two-byte header, at least 4 bytes, status at offset 3. -/
def isFrameWithStatus (st : Nat) (r : List Nat) : Prop :=
  r.getD 0 0 = 0x02 ∧ r.getD 1 0 = 0x03 ∧ 4 ≤ r.length ∧ r.getD 3 0 = st

instance (st : Nat) (r : List Nat) : Decidable (isFrameWithStatus st r) := by
  unfold isFrameWithStatus; infer_instance

/-! ### Helper lemmas -/

lemma record_bill_count (n d : BillNominal) (t : BillTable) :
    (record_bill n t).count d = t.count d + (if d = n then 1 else 0) := by
  cases n <;> cases d <;> simp [record_bill, BillTable.count]

lemma init_database_count (d : BillNominal) : init_database.count d = 0 := by
  cases d <;> rfl

lemma countAccepted_cons (d : BillNominal) (e : BillEvent) (evs : List BillEvent) :
    countAccepted d (e :: evs) =
      countAccepted d evs + (if e = .Accepted d then 1 else 0) := by
  simp [countAccepted, List.countP_cons]

/-- A buffer passing the three leading guards is handled by the status
dispatch. -/
lemma poll_frame {st : Nat} {resp : List Nat} (er : List Nat) (lk sr : Bool)
    (db : BillTable) (h : isFrameWithStatus st resp) :
    poll resp er lk sr db = dispatch st resp er lk sr db := by
  obtain ⟨h0, h1, h4, hst⟩ := h
  unfold poll
  rw [if_neg (by omega), if_neg (not_not.mpr ⟨h0, h1⟩), if_neg (by omega), hst]

/-- A buffer stopped by one of the three leading guards yields no event, no
acknowledgement and no state change. -/
lemma poll_guard {resp : List Nat} (er : List Nat) (lk sr : Bool)
    (db : BillTable)
    (h : resp.length < 4 ∨ ¬(resp.getD 0 0 = 0x02 ∧ resp.getD 1 0 = 0x03)) :
    poll resp er lk sr db = ⟨.ok none, sr, db, [COMMAND_POLL]⟩ := by
  unfold poll
  split_ifs with h1 h2 h3
  any_goals rfl
  rcases h with h | h
  · omega
  · exact absurd h2 h

/-! ### Claims -/

/-- C6: every response buffer shorter than 4 bytes (the empty buffer and
buffers failing the header check included) produces no event and no error:
`poll` returns `Ok(None)`. -/
theorem claim_C6_short_buffer (resp er : List Nat) (lk sr : Bool)
    (db : BillTable) (h : resp.length < 4) :
    (poll resp er lk sr db).ret = .ok none := by
  rw [poll_guard er lk sr db (Or.inl h)]

theorem claim_C6_witness :
    (poll [] [] true false init_database).ret = .ok none :=
  claim_C6_short_buffer [] [] true false init_database (by decide)

set_option maxRecDepth 10000 in
/-- C7: denomination decoding maps exactly the codes `0x00, 0x01, 0x02,
0x03, 0x0C` to the denominations 1000, 5000, 10000, 20000, 2000, with no
collisions (injective on recognized codes), and every other byte yields
`none`. -/
theorem claim_C7_from_code :
    BillNominal.from_code 0x00 = some .Dram1000 ∧
    BillNominal.from_code 0x01 = some .Dram5000 ∧
    BillNominal.from_code 0x02 = some .Dram10000 ∧
    BillNominal.from_code 0x03 = some .Dram20000 ∧
    BillNominal.from_code 0x0C = some .Dram2000 ∧
    BillNominal.Dram1000.value = 1000 ∧ BillNominal.Dram5000.value = 5000 ∧
    BillNominal.Dram10000.value = 10000 ∧
    BillNominal.Dram20000.value = 20000 ∧ BillNominal.Dram2000.value = 2000 ∧
    ([BillNominal.Dram1000, .Dram5000, .Dram10000, .Dram20000,
      .Dram2000] : List BillNominal).Nodup ∧
    ([(1000 : Int), 5000, 10000, 20000, 2000]).Nodup ∧
    (∀ c < 256, ¬(c = 0x00 ∨ c = 0x01 ∨ c = 0x02 ∨ c = 0x03 ∨ c = 0x0C) →
      BillNominal.from_code c = none) := by
  refine ⟨rfl, rfl, rfl, rfl, rfl, rfl, rfl, rfl, rfl, rfl, by decide,
    by decide, by decide⟩

theorem claim_C7_witness : BillNominal.from_code 0x60 = none :=
  claim_C7_from_code.2.2.2.2.2.2.2.2.2.2.2.2 0x60 (by decide) (by decide)

/-- C10: a well-formed frame whose status byte is `STATUS_STACKER_FULL`
(`0x41`) falls through to the default arm of the status dispatch: no
acknowledgement is written, no event is emitted, and both the sub-state
and the ledger are left unchanged. -/
theorem claim_C10_stacker_full (resp er : List Nat) (lk sr : Bool)
    (db : BillTable) (h : isFrameWithStatus STATUS_STACKER_FULL resp) :
    poll resp er lk sr db = ⟨.ok none, sr, db, [COMMAND_POLL]⟩ := by
  rw [poll_frame er lk sr db h]
  simp [dispatch, STATUS_STACKER_FULL, STATUS_INITIALIZING, STATUS_DISABLED,
    STATUS_IDLING, STATUS_ACCEPTING, STATUS_STACKING, STATUS_STACKER_REMOVED,
    STATUS_JAM_IN_STACKER, STATUS_JAM_IN_ACCEPTOR, STATUS_FAILURE,
    STATUS_REJECTED, STATUS_BILL_STACKED]

theorem claim_C10_witness :
    poll [0x02, 0x03, 0x06, 0x41] [] true false init_database =
      ⟨.ok none, false, init_database, [COMMAND_POLL]⟩ :=
  claim_C10_stacker_full [0x02, 0x03, 0x06, 0x41] [] true false init_database
    (by decide)

/-- C8: the frame `02 03 05 1C 60` (REJECTED, code `0x60`) makes `poll`
emit `Rejected("Insertion error")` and leave the ledger unchanged; more
generally, a buffer whose status byte is `STATUS_REJECTED` never changes
the ledger. -/
theorem claim_C8_rejected (er : List Nat) (lk sr : Bool) (db : BillTable) :
    (poll [0x02, 0x03, 0x05, 0x1C, 0x60] er lk sr db).ret =
      .ok (some (.Rejected "Insertion error")) ∧
    (poll [0x02, 0x03, 0x05, 0x1C, 0x60] er lk sr db).db = db ∧
    (∀ (resp er2 : List Nat) (lk2 sr2 : Bool) (db2 : BillTable),
      resp.getD 3 0 = STATUS_REJECTED → (poll resp er2 lk2 sr2 db2).db = db2) := by
  refine ⟨rfl, rfl, ?_⟩
  intro resp er2 lk2 sr2 db2 hst
  rcases Nat.lt_or_ge resp.length 4 with h4 | h4
  · rw [poll_guard er2 lk2 sr2 db2 (Or.inl h4)]
  · by_cases hdr : resp.getD 0 0 = 0x02 ∧ resp.getD 1 0 = 0x03
    · rw [poll_frame er2 lk2 sr2 db2 ⟨hdr.1, hdr.2, h4, hst⟩]
      simp only [dispatch, STATUS_INITIALIZING, STATUS_DISABLED, STATUS_IDLING,
        STATUS_ACCEPTING, STATUS_STACKING, STATUS_STACKER_REMOVED,
        STATUS_JAM_IN_STACKER, STATUS_JAM_IN_ACCEPTOR, STATUS_FAILURE,
        STATUS_REJECTED, STATUS_BILL_STACKED]
      norm_num
      split_ifs <;> rfl
    · rw [poll_guard er2 lk2 sr2 db2 (Or.inr hdr)]

/-- C5: a buffer whose status byte is FAILURE, REJECTED or BILL_STACKED but
which has fewer than 5 bytes yields no event and no acknowledgement is
written to the device (only the poll command itself was written). -/
theorem claim_C5_short_payload (resp er : List Nat) (lk sr : Bool)
    (db : BillTable) (h5 : resp.length < 5)
    (hst : resp.getD 3 0 = STATUS_FAILURE ∨ resp.getD 3 0 = STATUS_REJECTED ∨
      resp.getD 3 0 = STATUS_BILL_STACKED) :
    (poll resp er lk sr db).ret = .ok none ∧
    ACK ∉ (poll resp er lk sr db).writes := by
  have hres : poll resp er lk sr db = ⟨.ok none, sr, db, [COMMAND_POLL]⟩ := by
    rcases Nat.lt_or_ge resp.length 4 with h4 | h4
    · exact poll_guard er lk sr db (Or.inl h4)
    · by_cases hdr : resp.getD 0 0 = 0x02 ∧ resp.getD 1 0 = 0x03
      · rcases hst with hst | hst | hst <;>
        · rw [poll_frame er lk sr db ⟨hdr.1, hdr.2, h4, hst⟩]
          simp [dispatch, STATUS_INITIALIZING, STATUS_DISABLED, STATUS_IDLING,
            STATUS_ACCEPTING, STATUS_STACKING, STATUS_STACKER_REMOVED,
            STATUS_JAM_IN_STACKER, STATUS_JAM_IN_ACCEPTOR, STATUS_FAILURE,
            STATUS_REJECTED, STATUS_BILL_STACKED, h5]
      · exact poll_guard er lk sr db (Or.inr hdr)
  rw [hres]
  exact ⟨rfl, by show ACK ∉ [COMMAND_POLL]; decide⟩

theorem claim_C5_witness :
    (poll [0x02, 0x03, 0x05, 0x81] [] true false init_database).ret =
      .ok none ∧
    ACK ∉ (poll [0x02, 0x03, 0x05, 0x81] [] true false init_database).writes :=
  claim_C5_short_payload [0x02, 0x03, 0x05, 0x81] [] true false init_database
    (by decide) (by decide)

/-- C1 (counterexample): processing the BILL_STACKED frame
`02 03 06 81 00` (known denomination 1000) while the durable increment
fails makes `poll` abort with the database error and not emit the
`Accepted` event, contrary to the claim. -/
theorem claim_C1_counterexample :
    (poll [0x02, 0x03, 0x06, 0x81, 0x00] [] false false init_database).ret =
      .error .Database ∧
    (poll [0x02, 0x03, 0x06, 0x81, 0x00] [] false false init_database).ret ≠
      .ok (some (.Accepted .Dram1000)) :=
  ⟨rfl, by decide⟩

/-- C1 (amended): if, while processing a BILL_STACKED frame whose payload
resolves to a known denomination, the durable ledger increment fails, then
`poll` aborts the cycle with the database error: no event at all is
returned (in particular no `Accepted`), the ledger is unchanged, and the
acknowledgement had already been written before the failure. -/
theorem claim_C1_ledger_failure_aborts (resp er : List Nat) (sr : Bool)
    (db : BillTable) (nominal : BillNominal)
    (hf : isFrameWithStatus STATUS_BILL_STACKED resp) (h5 : 5 ≤ resp.length)
    (hn : BillNominal.from_code (resp.getD 4 0) = some nominal) :
    (poll resp er false sr db).ret = .error .Database ∧
    (poll resp er false sr db).db = db ∧
    (∀ e : BillEvent, (poll resp er false sr db).ret ≠ .ok (some e)) ∧
    ACK ∈ (poll resp er false sr db).writes := by
  have hn5 : ¬resp.length < 5 := by omega
  have hres : poll resp er false sr db =
      ⟨.error .Database, sr, db, [COMMAND_POLL, ACK]⟩ := by
    rw [poll_frame er false sr db hf]
    have hn' : BillNominal.from_code (resp[4]?.getD 0) = some nominal := by
      simpa using hn
    simp [dispatch, STATUS_INITIALIZING, STATUS_DISABLED, STATUS_IDLING,
      STATUS_ACCEPTING, STATUS_STACKING, STATUS_STACKER_REMOVED,
      STATUS_JAM_IN_STACKER, STATUS_JAM_IN_ACCEPTOR, STATUS_FAILURE,
      STATUS_REJECTED, STATUS_BILL_STACKED, hn5, hn']
  rw [hres]
  exact ⟨rfl, rfl, fun e => by simp, by simp⟩

theorem claim_C1_witness :
    (poll [0x02, 0x03, 0x06, 0x81, 0x0C] [] false false init_database).ret =
      .error .Database :=
  (claim_C1_ledger_failure_aborts [0x02, 0x03, 0x06, 0x81, 0x0C] [] false
    init_database .Dram2000 (by decide) (by decide) (by decide)).1

/-- C4: with sub-state StackerRemoved, a DISABLED frame makes `poll` emit
`StackerReplaced`, clear the flag back to StackerPresent, and write the
Enable command to the device (the source sleeps 500 ms first, then calls
`enable`); a second DISABLED frame, arriving with the flag already
cleared, emits no event and leaves the flag cleared. -/
theorem claim_C4_stacker_replaced (resp er resp2 er2 : List Nat)
    (lk lk2 : Bool) (db db2 : BillTable)
    (h : isFrameWithStatus STATUS_DISABLED resp)
    (h2 : isFrameWithStatus STATUS_DISABLED resp2) :
    (poll resp er lk true db).ret = .ok (some .StackerReplaced) ∧
    (poll resp er lk true db).stackerRemoved = false ∧
    COMMAND_ENABLE ∈ (poll resp er lk true db).writes ∧
    (poll resp2 er2 lk2 false db2).ret = .ok none ∧
    (poll resp2 er2 lk2 false db2).stackerRemoved = false := by
  rw [poll_frame er lk true db h, poll_frame er2 lk2 false db2 h2]
  refine ⟨?_, ?_, ?_, ?_, ?_⟩ <;>
    simp [dispatch, enableWrites, STATUS_INITIALIZING, STATUS_DISABLED,
      STATUS_IDLING, STATUS_ACCEPTING, STATUS_STACKING,
      STATUS_STACKER_REMOVED, STATUS_JAM_IN_STACKER, STATUS_JAM_IN_ACCEPTOR,
      STATUS_FAILURE, STATUS_REJECTED, STATUS_BILL_STACKED]

theorem claim_C4_witness :
    (poll [0x02, 0x03, 0x06, 0x19] [] true true init_database).ret =
      .ok (some .StackerReplaced) ∧
    (poll [0x02, 0x03, 0x06, 0x19] [] true true init_database).stackerRemoved =
      false ∧
    COMMAND_ENABLE ∈
      (poll [0x02, 0x03, 0x06, 0x19] [] true true init_database).writes ∧
    (poll [0x02, 0x03, 0x06, 0x19] [] true false init_database).ret =
      .ok none ∧
    (poll [0x02, 0x03, 0x06, 0x19] [] true false
      init_database).stackerRemoved = false :=
  claim_C4_stacker_replaced [0x02, 0x03, 0x06, 0x19] []
    [0x02, 0x03, 0x06, 0x19] [] true true init_database init_database
    (by decide) (by decide)

lemma dispatch_stacker_removed_true (resp er : List Nat) (lk : Bool)
    (db : BillTable) :
    dispatch STATUS_STACKER_REMOVED resp er lk true db =
      ⟨.ok none, true, db, [COMMAND_POLL, ACK]⟩ := by
  simp [dispatch, STATUS_INITIALIZING, STATUS_DISABLED, STATUS_IDLING,
    STATUS_ACCEPTING, STATUS_STACKING, STATUS_STACKER_REMOVED,
    STATUS_JAM_IN_STACKER, STATUS_JAM_IN_ACCEPTOR, STATUS_FAILURE,
    STATUS_REJECTED, STATUS_BILL_STACKED]

lemma dispatch_stacker_removed_false (resp er : List Nat) (lk : Bool)
    (db : BillTable) :
    dispatch STATUS_STACKER_REMOVED resp er lk false db =
      ⟨.ok (some .StackerRemoved), true, db, [COMMAND_POLL, ACK]⟩ := by
  simp [dispatch, STATUS_INITIALIZING, STATUS_DISABLED, STATUS_IDLING,
    STATUS_ACCEPTING, STATUS_STACKING, STATUS_STACKER_REMOVED,
    STATUS_JAM_IN_STACKER, STATUS_JAM_IN_ACCEPTOR, STATUS_FAILURE,
    STATUS_REJECTED, STATUS_BILL_STACKED]

/-- With the stacker-removed flag already set, a run of polls that all carry
status STACKER_REMOVED emits no event and changes nothing. -/
lemma runPolls_removed_true (inputs : List (List Nat × List Nat))
    (db : BillTable)
    (h : ∀ p ∈ inputs, isFrameWithStatus STATUS_STACKER_REMOVED p.1) :
    runPolls inputs true db = ⟨true, db, []⟩ := by
  induction inputs with
  | nil => rfl
  | cons hd tl ih =>
    obtain ⟨r, er⟩ := hd
    have hr := h (r, er) (List.mem_cons_self _ _)
    have hp : poll r er true true db =
        ⟨.ok none, true, db, [COMMAND_POLL, ACK]⟩ := by
      rw [poll_frame er true true db hr]
      exact dispatch_stacker_removed_true r er true db
    simp only [runPolls, hp]
    rw [ih (fun p hp2 => h p (List.mem_cons_of_mem _ hp2))]

/-- C3: over a nonempty run of polls whose frames all carry status
STACKER_REMOVED, starting from sub-state StackerPresent, exactly one
StackerRemoved event is emitted — by the first poll — and no later poll
emits anything. -/
theorem claim_C3_stacker_removed_dedup (inputs : List (List Nat × List Nat))
    (db : BillTable) (hne : inputs ≠ [])
    (h : ∀ p ∈ inputs, isFrameWithStatus STATUS_STACKER_REMOVED p.1) :
    (runPolls inputs false db).events = [.StackerRemoved] ∧
    (runPolls inputs false db).stackerRemoved = true ∧
    (runPolls inputs false db).db = db := by
  cases inputs with
  | nil => exact absurd rfl hne
  | cons hd tl =>
    obtain ⟨r, er⟩ := hd
    have hr := h (r, er) (List.mem_cons_self _ _)
    have hp : poll r er true false db =
        ⟨.ok (some .StackerRemoved), true, db, [COMMAND_POLL, ACK]⟩ := by
      rw [poll_frame er true false db hr]
      exact dispatch_stacker_removed_false r er true db
    simp only [runPolls, hp]
    rw [runPolls_removed_true tl db (fun p hp2 => h p (List.mem_cons_of_mem _ hp2))]
    exact ⟨rfl, rfl, rfl⟩

theorem claim_C3_witness :
    (runPolls [([0x02, 0x03, 0x06, 0x42], []), ([0x02, 0x03, 0x06, 0x42], []),
      ([0x02, 0x03, 0x06, 0x42], [])] false init_database).events =
      [.StackerRemoved] :=
  (claim_C3_stacker_removed_dedup
    [([0x02, 0x03, 0x06, 0x42], []), ([0x02, 0x03, 0x06, 0x42], []),
      ([0x02, 0x03, 0x06, 0x42], [])] init_database (by decide) (by decide)).1

theorem claim_C8_witness :
    (poll [0x02, 0x03, 0x05, 0x1C, 0x64] [] true false init_database).db =
      init_database :=
  (claim_C8_rejected [] true false init_database).2.2
    [0x02, 0x03, 0x05, 0x1C, 0x64] [] true false init_database (by decide)

section DispatchEval

variable (resp er : List Nat) (lk sr : Bool) (db : BillTable)

lemma dispatch_initializing :
    dispatch STATUS_INITIALIZING resp er lk sr db =
      ⟨.ok none, sr, db, [COMMAND_POLL, ACK]⟩ := by
  simp [dispatch, STATUS_INITIALIZING]

lemma dispatch_disabled_true :
    dispatch STATUS_DISABLED resp er lk true db =
      ⟨.ok (some .StackerReplaced), false, db,
        [COMMAND_POLL, ACK] ++ enableWrites er⟩ := by
  simp [dispatch, STATUS_INITIALIZING, STATUS_DISABLED]

lemma dispatch_disabled_false :
    dispatch STATUS_DISABLED resp er lk false db =
      ⟨.ok none, false, db, [COMMAND_POLL, ACK]⟩ := by
  simp [dispatch, STATUS_INITIALIZING, STATUS_DISABLED]

lemma dispatch_idling :
    dispatch STATUS_IDLING resp er lk sr db =
      ⟨.ok none, sr, db, [COMMAND_POLL, ACK]⟩ := by
  simp [dispatch, STATUS_INITIALIZING, STATUS_DISABLED, STATUS_IDLING]

lemma dispatch_accepting :
    dispatch STATUS_ACCEPTING resp er lk sr db =
      ⟨.ok none, sr, db, [COMMAND_POLL, ACK]⟩ := by
  simp [dispatch, STATUS_INITIALIZING, STATUS_DISABLED, STATUS_IDLING,
    STATUS_ACCEPTING]

lemma dispatch_stacking :
    dispatch STATUS_STACKING resp er lk sr db =
      ⟨.ok none, sr, db, [COMMAND_POLL, ACK]⟩ := by
  simp [dispatch, STATUS_INITIALIZING, STATUS_DISABLED, STATUS_IDLING,
    STATUS_ACCEPTING, STATUS_STACKING]

lemma dispatch_jam_in_stacker :
    dispatch STATUS_JAM_IN_STACKER resp er lk sr db =
      ⟨.ok (some (.Jam "Bill jam in stacker")), sr, db,
        [COMMAND_POLL, ACK]⟩ := by
  simp [dispatch, STATUS_INITIALIZING, STATUS_DISABLED, STATUS_IDLING,
    STATUS_ACCEPTING, STATUS_STACKING, STATUS_STACKER_REMOVED,
    STATUS_JAM_IN_STACKER]

lemma dispatch_jam_in_acceptor :
    dispatch STATUS_JAM_IN_ACCEPTOR resp er lk sr db =
      ⟨.ok (some (.Jam "Bill jam in acceptor")), sr, db,
        [COMMAND_POLL, ACK]⟩ := by
  simp [dispatch, STATUS_INITIALIZING, STATUS_DISABLED, STATUS_IDLING,
    STATUS_ACCEPTING, STATUS_STACKING, STATUS_STACKER_REMOVED,
    STATUS_JAM_IN_STACKER, STATUS_JAM_IN_ACCEPTOR]

lemma dispatch_failure_short (h5 : resp.length < 5) :
    dispatch STATUS_FAILURE resp er lk sr db =
      ⟨.ok none, sr, db, [COMMAND_POLL]⟩ := by
  simp [dispatch, STATUS_INITIALIZING, STATUS_DISABLED, STATUS_IDLING,
    STATUS_ACCEPTING, STATUS_STACKING, STATUS_STACKER_REMOVED,
    STATUS_JAM_IN_STACKER, STATUS_JAM_IN_ACCEPTOR, STATUS_FAILURE, h5]

lemma dispatch_failure_55 (h5 : ¬resp.length < 5)
    (hc : resp.getD 4 0 = FAILURE_55) :
    dispatch STATUS_FAILURE resp er lk sr db =
      ⟨.ok (some (.Error "FAILURE 55")), sr, db, [COMMAND_POLL, ACK]⟩ := by
  have hc' : resp[4]?.getD 0 = FAILURE_55 := by simpa using hc
  simp [dispatch, STATUS_INITIALIZING, STATUS_DISABLED, STATUS_IDLING,
    STATUS_ACCEPTING, STATUS_STACKING, STATUS_STACKER_REMOVED,
    STATUS_JAM_IN_STACKER, STATUS_JAM_IN_ACCEPTOR, STATUS_FAILURE, h5, hc']

lemma dispatch_failure_other (h5 : ¬resp.length < 5)
    (hc : ¬resp.getD 4 0 = FAILURE_55) :
    dispatch STATUS_FAILURE resp er lk sr db =
      ⟨.ok (some (.Error ("FAILURE 0x" ++ hex2 (resp.getD 4 0)))), sr, db,
        [COMMAND_POLL, ACK]⟩ := by
  have hc' : ¬resp[4]?.getD 0 = FAILURE_55 := by simpa using hc
  simp [dispatch, STATUS_INITIALIZING, STATUS_DISABLED, STATUS_IDLING,
    STATUS_ACCEPTING, STATUS_STACKING, STATUS_STACKER_REMOVED,
    STATUS_JAM_IN_STACKER, STATUS_JAM_IN_ACCEPTOR, STATUS_FAILURE, h5, hc']

lemma dispatch_rejected_short (h5 : resp.length < 5) :
    dispatch STATUS_REJECTED resp er lk sr db =
      ⟨.ok none, sr, db, [COMMAND_POLL]⟩ := by
  simp [dispatch, STATUS_INITIALIZING, STATUS_DISABLED, STATUS_IDLING,
    STATUS_ACCEPTING, STATUS_STACKING, STATUS_STACKER_REMOVED,
    STATUS_JAM_IN_STACKER, STATUS_JAM_IN_ACCEPTOR, STATUS_FAILURE,
    STATUS_REJECTED, h5]

lemma dispatch_rejected_long (h5 : ¬resp.length < 5) :
    dispatch STATUS_REJECTED resp er lk sr db =
      ⟨.ok (some (.Rejected (rejectReason (resp.getD 4 0)))), sr, db,
        [COMMAND_POLL, ACK]⟩ := by
  simp [dispatch, STATUS_INITIALIZING, STATUS_DISABLED, STATUS_IDLING,
    STATUS_ACCEPTING, STATUS_STACKING, STATUS_STACKER_REMOVED,
    STATUS_JAM_IN_STACKER, STATUS_JAM_IN_ACCEPTOR, STATUS_FAILURE,
    STATUS_REJECTED, h5]

lemma dispatch_bill_stacked_short (h5 : resp.length < 5) :
    dispatch STATUS_BILL_STACKED resp er lk sr db =
      ⟨.ok none, sr, db, [COMMAND_POLL]⟩ := by
  simp [dispatch, STATUS_INITIALIZING, STATUS_DISABLED, STATUS_IDLING,
    STATUS_ACCEPTING, STATUS_STACKING, STATUS_STACKER_REMOVED,
    STATUS_JAM_IN_STACKER, STATUS_JAM_IN_ACCEPTOR, STATUS_FAILURE,
    STATUS_REJECTED, STATUS_BILL_STACKED, h5]

lemma dispatch_bill_stacked_unknown (h5 : ¬resp.length < 5)
    (hn : BillNominal.from_code (resp.getD 4 0) = none) :
    dispatch STATUS_BILL_STACKED resp er lk sr db =
      ⟨.ok (some (.Error ("Unknown nominal: 0x" ++ hex2 (resp.getD 4 0)))),
        sr, db, [COMMAND_POLL, ACK]⟩ := by
  have hn' : BillNominal.from_code (resp[4]?.getD 0) = none := by simpa using hn
  simp [dispatch, STATUS_INITIALIZING, STATUS_DISABLED, STATUS_IDLING,
    STATUS_ACCEPTING, STATUS_STACKING, STATUS_STACKER_REMOVED,
    STATUS_JAM_IN_STACKER, STATUS_JAM_IN_ACCEPTOR, STATUS_FAILURE,
    STATUS_REJECTED, STATUS_BILL_STACKED, h5, hn']

lemma dispatch_bill_stacked_known_ok (nom : BillNominal)
    (h5 : ¬resp.length < 5)
    (hn : BillNominal.from_code (resp.getD 4 0) = some nom) :
    dispatch STATUS_BILL_STACKED resp er true sr db =
      ⟨.ok (some (.Accepted nom)), sr, record_bill nom db,
        [COMMAND_POLL, ACK]⟩ := by
  have hn' : BillNominal.from_code (resp[4]?.getD 0) = some nom := by
    simpa using hn
  simp [dispatch, STATUS_INITIALIZING, STATUS_DISABLED, STATUS_IDLING,
    STATUS_ACCEPTING, STATUS_STACKING, STATUS_STACKER_REMOVED,
    STATUS_JAM_IN_STACKER, STATUS_JAM_IN_ACCEPTOR, STATUS_FAILURE,
    STATUS_REJECTED, STATUS_BILL_STACKED, h5, hn']

lemma dispatch_bill_stacked_known_fail (nom : BillNominal)
    (h5 : ¬resp.length < 5)
    (hn : BillNominal.from_code (resp.getD 4 0) = some nom) :
    dispatch STATUS_BILL_STACKED resp er false sr db =
      ⟨.error .Database, sr, db, [COMMAND_POLL, ACK]⟩ := by
  have hn' : BillNominal.from_code (resp[4]?.getD 0) = some nom := by
    simpa using hn
  simp [dispatch, STATUS_INITIALIZING, STATUS_DISABLED, STATUS_IDLING,
    STATUS_ACCEPTING, STATUS_STACKING, STATUS_STACKER_REMOVED,
    STATUS_JAM_IN_STACKER, STATUS_JAM_IN_ACCEPTOR, STATUS_FAILURE,
    STATUS_REJECTED, STATUS_BILL_STACKED, h5, hn']

lemma dispatch_default (st : Nat) (h1 : st ≠ STATUS_INITIALIZING)
    (h2 : st ≠ STATUS_DISABLED) (h3 : st ≠ STATUS_IDLING)
    (h4 : st ≠ STATUS_ACCEPTING) (h5 : st ≠ STATUS_STACKING)
    (h6 : st ≠ STATUS_STACKER_REMOVED) (h7 : st ≠ STATUS_JAM_IN_STACKER)
    (h8 : st ≠ STATUS_JAM_IN_ACCEPTOR) (h9 : st ≠ STATUS_FAILURE)
    (h10 : st ≠ STATUS_REJECTED) (h11 : st ≠ STATUS_BILL_STACKED) :
    dispatch st resp er lk sr db = ⟨.ok none, sr, db, [COMMAND_POLL]⟩ := by
  simp [dispatch, h1, h2, h3, h4, h5, h6, h7, h8, h9, h10, h11]

end DispatchEval

/-- A status dispatch with a healthy ledger always returns `Ok`, and either
leaves the table alone and emits no `Accepted`, or increments exactly one
denomination and emits `Accepted` of that denomination. -/
lemma dispatch_true_full (st : Nat) (resp er : List Nat) (sr : Bool)
    (db : BillTable) :
    (∃ o, (dispatch st resp er true sr db).ret = .ok o) ∧
    (((dispatch st resp er true sr db).db = db ∧
      (∀ d, (dispatch st resp er true sr db).ret ≠ .ok (some (.Accepted d)))) ∨
    ∃ d, (dispatch st resp er true sr db).db = record_bill d db ∧
      (dispatch st resp er true sr db).ret = .ok (some (.Accepted d))) := by
  by_cases h1 : st = STATUS_INITIALIZING
  · subst h1
    rw [dispatch_initializing]
    exact ⟨⟨none, rfl⟩, Or.inl ⟨rfl, fun d => by simp⟩⟩
  by_cases h2 : st = STATUS_DISABLED
  · subst h2
    cases sr
    · rw [dispatch_disabled_false]
      exact ⟨⟨none, rfl⟩, Or.inl ⟨rfl, fun d => by simp⟩⟩
    · rw [dispatch_disabled_true]
      exact ⟨⟨some .StackerReplaced, rfl⟩, Or.inl ⟨rfl, fun d => by simp⟩⟩
  by_cases h3 : st = STATUS_IDLING
  · subst h3
    rw [dispatch_idling]
    exact ⟨⟨none, rfl⟩, Or.inl ⟨rfl, fun d => by simp⟩⟩
  by_cases h4 : st = STATUS_ACCEPTING
  · subst h4
    rw [dispatch_accepting]
    exact ⟨⟨none, rfl⟩, Or.inl ⟨rfl, fun d => by simp⟩⟩
  by_cases h5 : st = STATUS_STACKING
  · subst h5
    rw [dispatch_stacking]
    exact ⟨⟨none, rfl⟩, Or.inl ⟨rfl, fun d => by simp⟩⟩
  by_cases h6 : st = STATUS_STACKER_REMOVED
  · subst h6
    cases sr
    · rw [dispatch_stacker_removed_false]
      exact ⟨⟨some .StackerRemoved, rfl⟩, Or.inl ⟨rfl, fun d => by simp⟩⟩
    · rw [dispatch_stacker_removed_true]
      exact ⟨⟨none, rfl⟩, Or.inl ⟨rfl, fun d => by simp⟩⟩
  by_cases h7 : st = STATUS_JAM_IN_STACKER
  · subst h7
    rw [dispatch_jam_in_stacker]
    exact ⟨⟨_, rfl⟩, Or.inl ⟨rfl, fun d => by simp⟩⟩
  by_cases h8 : st = STATUS_JAM_IN_ACCEPTOR
  · subst h8
    rw [dispatch_jam_in_acceptor]
    exact ⟨⟨_, rfl⟩, Or.inl ⟨rfl, fun d => by simp⟩⟩
  by_cases h9 : st = STATUS_FAILURE
  · subst h9
    by_cases hl : resp.length < 5
    · rw [dispatch_failure_short resp er true sr db hl]
      exact ⟨⟨none, rfl⟩, Or.inl ⟨rfl, fun d => by simp⟩⟩
    · by_cases hc : resp.getD 4 0 = FAILURE_55
      · rw [dispatch_failure_55 resp er true sr db hl hc]
        exact ⟨⟨_, rfl⟩, Or.inl ⟨rfl, fun d => by simp⟩⟩
      · rw [dispatch_failure_other resp er true sr db hl hc]
        exact ⟨⟨_, rfl⟩, Or.inl ⟨rfl, fun d => by simp⟩⟩
  by_cases h10 : st = STATUS_REJECTED
  · subst h10
    by_cases hl : resp.length < 5
    · rw [dispatch_rejected_short resp er true sr db hl]
      exact ⟨⟨none, rfl⟩, Or.inl ⟨rfl, fun d => by simp⟩⟩
    · rw [dispatch_rejected_long resp er true sr db hl]
      exact ⟨⟨_, rfl⟩, Or.inl ⟨rfl, fun d => by simp⟩⟩
  by_cases h11 : st = STATUS_BILL_STACKED
  · subst h11
    by_cases hl : resp.length < 5
    · rw [dispatch_bill_stacked_short resp er true sr db hl]
      exact ⟨⟨none, rfl⟩, Or.inl ⟨rfl, fun d => by simp⟩⟩
    · rcases hfc : BillNominal.from_code (resp.getD 4 0) with _ | nom
      · rw [dispatch_bill_stacked_unknown resp er true sr db hl hfc]
        exact ⟨⟨_, rfl⟩, Or.inl ⟨rfl, fun d => by simp⟩⟩
      · rw [dispatch_bill_stacked_known_ok resp er sr db nom hl hfc]
        exact ⟨⟨some (.Accepted nom), rfl⟩, Or.inr ⟨nom, rfl, rfl⟩⟩
  rw [dispatch_default resp er true sr db st h1 h2 h3 h4 h5 h6 h7 h8 h9 h10 h11]
  exact ⟨⟨none, rfl⟩, Or.inl ⟨rfl, fun d => by simp⟩⟩

/-- With a failing ledger a dispatch never changes the table: the one
branch that would write instead aborts with the database error. -/
lemma dispatch_false_db (st : Nat) (resp er : List Nat) (sr : Bool)
    (db : BillTable) :
    (dispatch st resp er false sr db).db = db := by
  by_cases h1 : st = STATUS_INITIALIZING
  · subst h1
    rw [dispatch_initializing]
  by_cases h2 : st = STATUS_DISABLED
  · subst h2
    cases sr
    · rw [dispatch_disabled_false]
    · rw [dispatch_disabled_true]
  by_cases h3 : st = STATUS_IDLING
  · subst h3
    rw [dispatch_idling]
  by_cases h4 : st = STATUS_ACCEPTING
  · subst h4
    rw [dispatch_accepting]
  by_cases h5 : st = STATUS_STACKING
  · subst h5
    rw [dispatch_stacking]
  by_cases h6 : st = STATUS_STACKER_REMOVED
  · subst h6
    cases sr
    · rw [dispatch_stacker_removed_false]
    · rw [dispatch_stacker_removed_true]
  by_cases h7 : st = STATUS_JAM_IN_STACKER
  · subst h7
    rw [dispatch_jam_in_stacker]
  by_cases h8 : st = STATUS_JAM_IN_ACCEPTOR
  · subst h8
    rw [dispatch_jam_in_acceptor]
  by_cases h9 : st = STATUS_FAILURE
  · subst h9
    by_cases hl : resp.length < 5
    · rw [dispatch_failure_short resp er false sr db hl]
    · by_cases hc : resp.getD 4 0 = FAILURE_55
      · rw [dispatch_failure_55 resp er false sr db hl hc]
      · rw [dispatch_failure_other resp er false sr db hl hc]
  by_cases h10 : st = STATUS_REJECTED
  · subst h10
    by_cases hl : resp.length < 5
    · rw [dispatch_rejected_short resp er false sr db hl]
    · rw [dispatch_rejected_long resp er false sr db hl]
  by_cases h11 : st = STATUS_BILL_STACKED
  · subst h11
    by_cases hl : resp.length < 5
    · rw [dispatch_bill_stacked_short resp er false sr db hl]
    · rcases hfc : BillNominal.from_code (resp.getD 4 0) with _ | nom
      · rw [dispatch_bill_stacked_unknown resp er false sr db hl hfc]
      · rw [dispatch_bill_stacked_known_fail resp er sr db nom hl hfc]
  rw [dispatch_default resp er false sr db st h1 h2 h3 h4 h5 h6 h7 h8 h9 h10 h11]

lemma dispatch_spec_true (st : Nat) (resp er : List Nat) (sr : Bool)
    (db : BillTable) :
    ((dispatch st resp er true sr db).db = db ∧
      (∀ d, (dispatch st resp er true sr db).ret ≠ .ok (some (.Accepted d)))) ∨
    ∃ d, (dispatch st resp er true sr db).db = record_bill d db ∧
      (dispatch st resp er true sr db).ret = .ok (some (.Accepted d)) :=
  (dispatch_true_full st resp er sr db).2

lemma dispatch_db_cases (st : Nat) (resp er : List Nat) (lk sr : Bool)
    (db : BillTable) :
    (dispatch st resp er lk sr db).db = db ∨
    ∃ n, (dispatch st resp er lk sr db).db = record_bill n db := by
  cases lk
  · exact Or.inl (dispatch_false_db st resp er sr db)
  · rcases dispatch_spec_true st resp er sr db with ⟨h, _⟩ | ⟨n, h, _⟩
    · exact Or.inl h
    · exact Or.inr ⟨n, h⟩

lemma dispatch_ok_true (st : Nat) (resp er : List Nat) (sr : Bool)
    (db : BillTable) :
    ∃ o, (dispatch st resp er true sr db).ret = .ok o :=
  (dispatch_true_full st resp er sr db).1

lemma poll_spec_true (resp er : List Nat) (sr : Bool) (db : BillTable) :
    ((poll resp er true sr db).db = db ∧
      (∀ d, (poll resp er true sr db).ret ≠ .ok (some (.Accepted d)))) ∨
    ∃ d, (poll resp er true sr db).db = record_bill d db ∧
      (poll resp er true sr db).ret = .ok (some (.Accepted d)) := by
  rcases Nat.lt_or_ge resp.length 4 with h4 | h4
  · rw [poll_guard er true sr db (Or.inl h4)]
    exact Or.inl ⟨rfl, fun d => by simp⟩
  · by_cases hdr : resp.getD 0 0 = 0x02 ∧ resp.getD 1 0 = 0x03
    · rw [poll_frame er true sr db ⟨hdr.1, hdr.2, h4, rfl⟩]
      exact dispatch_spec_true _ resp er sr db
    · rw [poll_guard er true sr db (Or.inr hdr)]
      exact Or.inl ⟨rfl, fun d => by simp⟩

lemma poll_db_cases (resp er : List Nat) (lk sr : Bool) (db : BillTable) :
    (poll resp er lk sr db).db = db ∨
    ∃ n, (poll resp er lk sr db).db = record_bill n db := by
  rcases Nat.lt_or_ge resp.length 4 with h4 | h4
  · rw [poll_guard er lk sr db (Or.inl h4)]
    exact Or.inl rfl
  · by_cases hdr : resp.getD 0 0 = 0x02 ∧ resp.getD 1 0 = 0x03
    · rw [poll_frame er lk sr db ⟨hdr.1, hdr.2, h4, rfl⟩]
      exact dispatch_db_cases _ resp er lk sr db
    · rw [poll_guard er lk sr db (Or.inr hdr)]
      exact Or.inl rfl

lemma poll_ok_true (resp er : List Nat) (sr : Bool) (db : BillTable) :
    ∃ o, (poll resp er true sr db).ret = .ok o := by
  rcases Nat.lt_or_ge resp.length 4 with h4 | h4
  · rw [poll_guard er true sr db (Or.inl h4)]
    exact ⟨none, rfl⟩
  · by_cases hdr : resp.getD 0 0 = 0x02 ∧ resp.getD 1 0 = 0x03
    · rw [poll_frame er true sr db ⟨hdr.1, hdr.2, h4, rfl⟩]
      exact dispatch_ok_true _ resp er sr db
    · rw [poll_guard er true sr db (Or.inr hdr)]
      exact ⟨none, rfl⟩

/-- A single poll never decreases any persisted quantity. -/
lemma poll_db_mono (resp er : List Nat) (lk sr : Bool) (db : BillTable)
    (d : BillNominal) :
    db.count d ≤ (poll resp er lk sr db).db.count d := by
  rcases poll_db_cases resp er lk sr db with h | ⟨n, h⟩
  · rw [h]
  · rw [h, record_bill_count]
    omega

/-- Over any run of polls with a healthy ledger, the quantity stored for a
denomination grows by exactly the number of `Accepted` events emitted. -/
lemma runPolls_count (inputs : List (List Nat × List Nat)) :
    ∀ (sr : Bool) (db : BillTable) (d : BillNominal),
      ((runPolls inputs sr db).db).count d =
        db.count d + countAccepted d (runPolls inputs sr db).events := by
  induction inputs with
  | nil =>
    intro sr db d
    simp [runPolls, countAccepted]
  | cons hd tl ih =>
    intro sr db d
    obtain ⟨r, er⟩ := hd
    simp only [runPolls]
    rcases poll_spec_true r er sr db with ⟨hdb, hnacc⟩ | ⟨n, hdb, hacc⟩
    · rcases poll_ok_true r er sr db with ⟨o, hret⟩
      cases o with
      | none =>
        simp only [hret]
        rw [ih, hdb]
      | some e =>
        simp only [hret]
        rw [ih, hdb, countAccepted_cons]
        have hne : ¬(e = BillEvent.Accepted d) := fun he => hnacc d (he ▸ hret)
        rw [if_neg hne]
        omega
    · simp only [hacc]
      rw [ih, hdb, record_bill_count, countAccepted_cons]
      rcases eq_or_ne d n with hnd | hnd
      · subst hnd
        simp
        omega
      · have : ¬(BillEvent.Accepted n = BillEvent.Accepted d) := by
          simp [Ne.symm hnd]
        rw [if_neg hnd, if_neg this]
        omega

/-- C2: every driver operation leaves every persisted quantity
non-decreasing, a poll against a healthy ledger always succeeds, and after
any run of successful polls from a freshly initialized store each
denomination's quantity equals the number of `Accepted` events of that
denomination emitted during the run. -/
theorem claim_C2_ledger_invariant :
    (∀ (resp er : List Nat) (lk sr : Bool) (db : BillTable) (d : BillNominal),
      db.count d ≤ (poll resp er lk sr db).db.count d) ∧
    (∀ (resp er : List Nat) (sr : Bool) (db : BillTable),
      ∃ o, (poll resp er true sr db).ret = .ok o) ∧
    (∀ (inputs : List (List Nat × List Nat)) (d : BillNominal),
      ((runPolls inputs false init_database).db).count d =
        countAccepted d (runPolls inputs false init_database).events) := by
  refine ⟨poll_db_mono, poll_ok_true, fun inputs d => ?_⟩
  have h := runPolls_count inputs false init_database d
  rwa [init_database_count, Nat.zero_add] at h

/-- C9: recording a denomination n times from a fresh store yields quantity
n for it and 0 for the others; `get_bill_counts` lists the pairs in
ascending nominal order and contains every denomination's quantity; the
total equals the sum of nominal times quantity over the listed rows. -/
theorem claim_C9_ledger_queries :
    (∀ (d : BillNominal) (n : Nat) (d' : BillNominal),
      (((record_bill d)^[n]) init_database).count d' =
        if d' = d then n else 0) ∧
    (∀ t : BillTable, List.Sorted (· < ·) ((get_bill_counts t).map Prod.fst)) ∧
    (∀ t : BillTable, get_total_amount t =
      ((get_bill_counts t).map (fun p => p.1 * p.2)).sum) ∧
    (∀ (t : BillTable) (d : BillNominal),
      (d.value, (t.count d : Int)) ∈ get_bill_counts t) := by
  refine ⟨?_, ?_, ?_, ?_⟩
  · intro d n
    induction n with
    | zero =>
      intro d'
      simp [init_database_count]
    | succ n ih =>
      intro d'
      rw [Function.iterate_succ_apply', record_bill_count, ih]
      rcases eq_or_ne d' d with h | h
      · simp [h]
      · simp [h]
  · intro t
    show List.Sorted (· < ·) [(1000 : Int), 2000, 5000, 10000, 20000]
    decide
  · intro t
    simp [get_total_amount, get_bill_counts]
    ring
  · intro t d
    cases d <;> simp [get_bill_counts, BillNominal.value, BillTable.count]

end Dramma
